import Mathlib

/-!
Shallow embedding of the M-Pesa STK push server (`src/server.js`) and
verification of its specification.  JavaScript strings are embedded as
lists of character codes (`List Nat`); JavaScript runtime values that the
handlers inspect are embedded as `JSValue`.
-/

namespace PorkyMpesa

/-- Character codes of a string literal: the byte-level view of a JS string
(all strings in this development are ASCII, so char codes and UTF-8 bytes
coincide). -/
def strCodes (s : String) : List Nat := s.data.map Char.toNat

/-- JavaScript runtime values, as far as the handlers inspect them:
`req.body` fields can be absent (`undefined`), `null`, strings or numbers. -/
inductive JSValue where
  | undefined
  | null
  | str (s : List Nat)
  | num (n : Int)
deriving DecidableEq, Repr

/-- JavaScript truthiness, used by `if (!phoneNumber || !amount)` and by
the `||` defaulting of `accountReference` / `description`. -/
def truthy : JSValue → Bool
  | .undefined => false
  | .null => false
  | .str s => !s.isEmpty
  | .num n => n != 0

/-- JavaScript `a || b`: `a` when truthy, else `b`. -/
def jsOr (a b : JSValue) : JSValue :=
  if truthy a then a else b

/-- JavaScript `String.prototype.startsWith` on code lists. -/
def jsStartsWith : List Nat → List Nat → Bool
  | [], _ => true
  | _ :: _, [] => false
  | p :: ps, c :: cs => p == c && jsStartsWith ps cs

/-- Phone-number formatting from the STK push handler (`server.js` lines
83-87): leading `0` becomes `254`; else a leading `+254` keeps only `254`
(`slice(1)` drops the `+`); else the input passes through. -/
def formatPhone (phoneNumber : List Nat) : List Nat :=
  if jsStartsWith (strCodes "0") phoneNumber then
    strCodes "254" ++ phoneNumber.drop 1
  else if jsStartsWith (strCodes "+254") phoneNumber then
    phoneNumber.drop 1
  else phoneNumber

example : formatPhone (strCodes "0712345678") = strCodes "254712345678" := by decide
example : formatPhone (strCodes "+254712345678") = strCodes "254712345678" := by decide
example : formatPhone (strCodes "254712345678") = strCodes "254712345678" := by decide

/-! ### Base64 (`Buffer.from(...).toString('base64')`) -/

/-- Base64 output alphabet as character codes: `A`-`Z`, `a`-`z`, `0`-`9`,
`+`, `/`, and the padding character `=` at index 64. -/
def b64Alphabet : List Nat :=
  [65, 66, 67, 68, 69, 70, 71, 72, 73, 74, 75, 76, 77, 78, 79, 80, 81, 82,
   83, 84, 85, 86, 87, 88, 89, 90,
   97, 98, 99, 100, 101, 102, 103, 104, 105, 106, 107, 108, 109, 110, 111,
   112, 113, 114, 115, 116, 117, 118, 119, 120, 121, 122,
   48, 49, 50, 51, 52, 53, 54, 55, 56, 57, 43, 47, 61]

/-- Character for one 6-bit group (64 selects the `=` padding char). -/
def b64Char (n : Nat) : Nat := b64Alphabet.getD n 61

/-- Splits a byte list into 6-bit groups, three bytes at a time, with the
marker 64 standing for a padding position. -/
def b64EncodeChunks : List Nat → List Nat
  | b1 :: b2 :: b3 :: rest =>
      b1 / 4 :: (b1 % 4 * 16 + b2 / 16) :: (b2 % 16 * 4 + b3 / 64) ::
        b3 % 64 :: b64EncodeChunks rest
  | [b1, b2] => [b1 / 4, b1 % 4 * 16 + b2 / 16, b2 % 16 * 4, 64]
  | [b1] => [b1 / 4, b1 % 4 * 16, 64, 64]
  | [] => []

/-- Inverse of `b64EncodeChunks` (used only to prove injectivity of the
encoding). -/
def b64DecodeChunks : List Nat → List Nat
  | c1 :: c2 :: c3 :: c4 :: rest =>
      if c3 = 64 then [c1 * 4 + c2 / 16]
      else if c4 = 64 then [c1 * 4 + c2 / 16, c2 % 16 * 16 + c3 / 4]
      else (c1 * 4 + c2 / 16) :: (c2 % 16 * 16 + c3 / 4) ::
        (c3 % 4 * 64 + c4) :: b64DecodeChunks rest
  | _ => []

/-- Base64 encoding of a byte list, as the code list of the encoded string. -/
def base64Encode (bytes : List Nat) : List Nat :=
  (b64EncodeChunks bytes).map b64Char

example : base64Encode (strCodes "Man") = strCodes "TWFu" := by decide
example : base64Encode (strCodes "Ma") = strCodes "TWE=" := by decide
example : base64Encode (strCodes "M") = strCodes "TQ==" := by decide

/-! ### Credential deriver -/

/-- The immutable gateway configuration fields the orchestrator reads
(`MPESA_CONFIG` in `server.js`; only the fields the verified paths use). -/
structure MpesaConfig where
  businessShortCode : List Nat
  passKey : List Nat
  callbackURL : List Nat
deriving DecidableEq

/-- `generatePassword` (`server.js` lines 62-69): base64 of
`businessShortCode ++ passKey ++ timestamp`, returned together with the
timestamp it embeds.  The wall-clock read of `generateTimestamp()` inside
the function is passed explicitly as `timestamp`. -/
def generatePassword (config : MpesaConfig) (timestamp : List Nat) :
    List Nat × List Nat :=
  (base64Encode (config.businessShortCode ++ config.passKey ++ timestamp),
   timestamp)

/-! ### STK push and status-query handlers -/

/-- Outbound network calls a handler can make, in order. -/
inductive Effect where
  | tokenFetch
  | gatewaySubmit
  | gatewayQuery
deriving DecidableEq, Repr

/-- An axios failure: either an HTTP error response (`error.response.data`
present) or a transport error (only `error.message`). -/
inductive UpstreamErr where
  | httpError (data : List Nat)
  | transport (message : List Nat)
deriving DecidableEq

/-- Models `error.response?.data || error.message`. -/
def errDetails : UpstreamErr → List Nat
  | .httpError d => d
  | .transport m => m

/-- A successful gateway response to the push submission. -/
structure StkOk where
  data : List Nat
  checkoutRequestID : List Nat
deriving DecidableEq

/-- JSON bodies the two verified endpoints can answer with. -/
inductive RespBody where
  | validationError
  | stkSuccess (data checkoutRequestID : List Nat)
  | stkError (details : List Nat)
  | statusSuccess (data : List Nat)
  | statusError
deriving DecidableEq

/-- An HTTP response: status code and JSON body. -/
structure HttpResponse where
  status : Nat
  body : RespBody
deriving DecidableEq

/-- Message of the TypeError thrown by `phoneNumber.startsWith` when
`phoneNumber` is not a string. -/
def typeErrorMessage : List Nat :=
  strCodes "phoneNumber.startsWith is not a function"

/-- The `POST /api/mpesa/stkpush` handler (`server.js` lines 72-133).
The two outbound calls are parameters (`tokenResult` for
`generateAccessToken()`, `submitResult` for the gateway POST); the returned
effect list records which of them the handler reached, in order.
Validation (`if (!phoneNumber || !amount)`) answers 400 before anything
else; phone formatting runs before the token fetch and throws a TypeError
on a non-string phone number, which the catch turns into a 500 whose
`details` is `error.message`; upstream failures become a 500 whose
`details` is `error.response?.data || error.message`. -/
def stkpush (phoneNumber amount : JSValue)
    (tokenResult : Except UpstreamErr (List Nat))
    (submitResult : Except UpstreamErr StkOk) : HttpResponse × List Effect :=
  if !truthy phoneNumber || !truthy amount then
    (⟨400, .validationError⟩, [])
  else
    match phoneNumber with
    | .str _ =>
      match tokenResult with
      | .error e => (⟨500, .stkError (errDetails e)⟩, [.tokenFetch])
      | .ok _ =>
        match submitResult with
        | .error e =>
            (⟨500, .stkError (errDetails e)⟩, [.tokenFetch, .gatewaySubmit])
        | .ok r =>
            (⟨200, .stkSuccess r.data r.checkoutRequestID⟩,
             [.tokenFetch, .gatewaySubmit])
    | _ => (⟨500, .stkError typeErrorMessage⟩, [])

/-- The `GET /api/payment/status/:checkoutRequestID` handler (`server.js`
lines 216-247).  On any failure (token fetch or query) the catch answers
`500 {error: 'Failed to check payment status'}` with no `details` field;
on success it forwards the gateway body. -/
def paymentStatus (checkoutRequestID : List Nat)
    (tokenResult : Except UpstreamErr (List Nat))
    (queryResult : Except UpstreamErr (List Nat)) :
    HttpResponse × List Effect :=
  match tokenResult with
  | .error _ => (⟨500, .statusError⟩, [.tokenFetch])
  | .ok _ =>
    match queryResult with
    | .error _ => (⟨500, .statusError⟩, [.tokenFetch, .gatewayQuery])
    | .ok d =>
        let _ := checkoutRequestID
        (⟨200, .statusSuccess d⟩, [.tokenFetch, .gatewayQuery])

/-! ### Outbound payloads (timestamp handling) -/

/-- The STK push payload (`server.js` lines 92-104), restricted to the
fields built here. -/
structure StkPushPayloadT where
  BusinessShortCode : List Nat
  Password : List Nat
  Timestamp : List Nat
  TransactionType : List Nat
  Amount : JSValue
  PartyA : List Nat
  PartyB : List Nat
  PhoneNumber : List Nat
  CallBackURL : List Nat
  AccountReference : JSValue
  TransactionDesc : JSValue
deriving DecidableEq

/-- The status-query payload (`server.js` lines 226-229). -/
structure StatusQueryPayloadT where
  BusinessShortCode : List Nat
  Password : List Nat
  Timestamp : List Nat
  CheckoutRequestID : List Nat
deriving DecidableEq

/-- Builds the STK push payload.  `clock i` is the value the `i`-th call of
`generateTimestamp()` during this request returns; the handler calls it
once, inside `generatePassword()`, and uses the destructured
`{ password, timestamp }` pair for both payload fields. -/
def stkPushPayloadOf (config : MpesaConfig) (clock : Nat → List Nat)
    (phone : List Nat) (amount accountReference description : JSValue) :
    StkPushPayloadT :=
  let pt := generatePassword config (clock 0)
  { BusinessShortCode := config.businessShortCode
    Password := pt.1
    Timestamp := pt.2
    TransactionType := strCodes "CustomerPayBillOnline"
    Amount := amount
    PartyA := formatPhone phone
    PartyB := config.businessShortCode
    PhoneNumber := formatPhone phone
    CallBackURL := config.callbackURL
    AccountReference := jsOr accountReference (.str (strCodes "Food Order"))
    TransactionDesc :=
      jsOr description (.str (strCodes "Payment for food order")) }

/-- Builds the status-query payload.  The handler calls
`generatePassword()` (first clock read, embedded in `Password`) and then
`generateTimestamp()` again (second clock read) for the `Timestamp` field. -/
def statusQueryPayloadOf (config : MpesaConfig) (clock : Nat → List Nat)
    (cid : List Nat) : StatusQueryPayloadT :=
  { BusinessShortCode := config.businessShortCode
    Password := (generatePassword config (clock 0)).1
    Timestamp := clock 1
    CheckoutRequestID := cid }

/-! ### Callback reconciler -/

/-- One entry of `CallbackMetadata.Item`. -/
structure MetaItem where
  Name : List Nat
  Value : JSValue
deriving DecidableEq

/-- The `Body.stkCallback` envelope.  Absent fields are `JSValue.undefined`;
`CallbackMetadata` is `none` when `CallbackMetadata?.Item` is absent. -/
structure StkCallback where
  MerchantRequestID : JSValue
  CheckoutRequestID : JSValue
  ResultCode : JSValue
  ResultDesc : JSValue
  CallbackMetadata : Option (List MetaItem)
deriving DecidableEq

/-- The `Body` object of the callback request. -/
structure CallbackBody where
  stkCallback : Option StkCallback
deriving DecidableEq

/-- An inbound callback request body.  `Body = none` models a body that
cannot be parsed into the expected envelope shape: there
`callbackData.Body.stkCallback` throws. -/
structure CallbackRequest where
  Body : Option CallbackBody
deriving DecidableEq

/-- Acknowledgment the callback handler sends to the gateway. -/
inductive CallbackAck where
  | received
  | processingError
deriving DecidableEq

/-- HTTP status of each acknowledgment. -/
def ackStatus : CallbackAck → Nat
  | .received => 200
  | .processingError => 500

/-- The `paymentData` record built on a successful callback
(`server.js` lines 147-153). -/
structure PaymentData where
  amount : JSValue
  mpesaReceiptNumber : JSValue
  phoneNumber : JSValue
  transactionDate : JSValue
  accountReference : JSValue
deriving DecidableEq

/-- Classification the reconciler produces from one callback. -/
inductive CallbackOutcome where
  | success (p : PaymentData)
  | failure (resultDesc : JSValue)
deriving DecidableEq

/-- `metadata.find(item => item.Name === name)?.Value`. -/
def findValue (metadata : List MetaItem) (name : List Nat) : JSValue :=
  match metadata.find? (fun item => item.Name == name) with
  | some item => item.Value
  | none => .undefined

/-- The `POST /api/mpesa/callback` handler (`server.js` lines 136-171):
acknowledges 200 whenever `Body` is present; classifies success exactly
when `Body.stkCallback` exists and its `ResultCode === 0`, extracting the
metadata fields by name and surfacing `MerchantRequestID` as
`accountReference`; any other case is a failure described by
`stkCallback?.ResultDesc`.  A missing `Body` throws, and the catch answers
500. -/
def handleCallback (req : CallbackRequest) :
    CallbackAck × Option CallbackOutcome :=
  match req.Body with
  | none => (.processingError, none)
  | some body =>
    match body.stkCallback with
    | some cb =>
      if cb.ResultCode = .num 0 then
        let metadata := cb.CallbackMetadata.getD []
        (.received, some (.success
          { amount := findValue metadata (strCodes "Amount")
            mpesaReceiptNumber := findValue metadata (strCodes "MpesaReceiptNumber")
            phoneNumber := findValue metadata (strCodes "PhoneNumber")
            transactionDate := findValue metadata (strCodes "TransactionDate")
            accountReference := cb.MerchantRequestID }))
      else (.received, some (.failure cb.ResultDesc))
    | none => (.received, some (.failure .undefined))

/-! ### Persistence collaborator (spec-modelled) -/

/-- Stored payment-outcome state keyed by correlation ID. -/
inductive OutcomeState where
  | pending
  | confirmed (p : PaymentData)
  | failed (reason : JSValue)
deriving DecidableEq

/-- Target state of one reconciled callback outcome. -/
def resultState : CallbackOutcome → OutcomeState
  | .success p => .confirmed p
  | .failure d => .failed d

/-- Modelled from the spec: the external persistence collaborator's
`transitionOutcome(correlationID, result)` is absent from `src/` (the
handler only logs at the "update your database" comment); §3 and §6
require a transition to `confirmed`/`failed` exactly once, terminal
thereafter. -/
def transitionOutcome (store : JSValue → OutcomeState) (cid : JSValue)
    (r : CallbackOutcome) : JSValue → OutcomeState :=
  fun k =>
    if k = cid then
      match store cid with
      | .pending => resultState r
      | s => s
    else store k

/-- Modelled from the spec: delivery of one callback to the reconciler plus
its single write notification to the persistence collaborator, keyed by the
envelope's `CheckoutRequestID` (§4.4); the write itself is missing from
`src/`. -/
def deliverCallback (store : JSValue → OutcomeState)
    (req : CallbackRequest) : JSValue → OutcomeState :=
  match req.Body with
  | none => store
  | some body =>
    match body.stkCallback with
    | none => store
    | some cb =>
      match (handleCallback req).2 with
      | some r => transitionOutcome store cb.CheckoutRequestID r
      | none => store

/-! ### Base64 injectivity -/

theorem b64DecodeChunks_encodeChunks (l : List Nat)
    (h : ∀ b ∈ l, b < 256) :
    b64DecodeChunks (b64EncodeChunks l) = l := by
  induction l using b64EncodeChunks.induct with
  | case1 b1 b2 b3 rest ih =>
      have h1 : b1 < 256 := h b1 (by simp)
      have h2 : b2 < 256 := h b2 (by simp)
      have h3 : b3 < 256 := h b3 (by simp)
      have hrest : ∀ b ∈ rest, b < 256 := fun b hb => h b (by simp [hb])
      simp only [b64EncodeChunks, b64DecodeChunks]
      rw [if_neg (by omega), if_neg (by omega), ih hrest]
      simp only [List.cons.injEq]
      refine ⟨by omega, by omega, by omega, trivial⟩
  | case2 b1 b2 =>
      have h1 : b1 < 256 := h b1 (by simp)
      have h2 : b2 < 256 := h b2 (by simp)
      simp only [b64EncodeChunks, b64DecodeChunks]
      rw [if_neg (by omega), if_pos trivial]
      simp only [List.cons.injEq]
      refine ⟨by omega, by omega, trivial⟩
  | case3 b1 =>
      have h1 : b1 < 256 := h b1 (by simp)
      simp only [b64EncodeChunks, b64DecodeChunks]
      rw [if_pos trivial]
      simp only [List.cons.injEq]
      refine ⟨by omega, trivial⟩
  | case4 => rfl

theorem b64EncodeChunks_le (l : List Nat) (h : ∀ b ∈ l, b < 256) :
    ∀ c ∈ b64EncodeChunks l, c ≤ 64 := by
  induction l using b64EncodeChunks.induct with
  | case1 b1 b2 b3 rest ih =>
      have h1 : b1 < 256 := h b1 (by simp)
      have h2 : b2 < 256 := h b2 (by simp)
      have h3 : b3 < 256 := h b3 (by simp)
      have hrest : ∀ b ∈ rest, b < 256 := fun b hb => h b (by simp [hb])
      intro c hc
      simp only [b64EncodeChunks, List.mem_cons] at hc
      rcases hc with rfl | rfl | rfl | rfl | hc
      · omega
      · omega
      · omega
      · omega
      · exact ih hrest c hc
  | case2 b1 b2 =>
      have h1 : b1 < 256 := h b1 (by simp)
      have h2 : b2 < 256 := h b2 (by simp)
      intro c hc
      simp only [b64EncodeChunks, List.mem_cons, List.not_mem_nil,
        or_false] at hc
      rcases hc with rfl | rfl | rfl | rfl <;> omega
  | case3 b1 =>
      have h1 : b1 < 256 := h b1 (by simp)
      intro c hc
      simp only [b64EncodeChunks, List.mem_cons, List.not_mem_nil,
        or_false] at hc
      rcases hc with rfl | rfl | rfl | rfl <;> omega
  | case4 => intro c hc; simp [b64EncodeChunks] at hc

theorem b64Char_leftInv : ∀ i : Fin 65, b64Alphabet.indexOf (b64Char i.val) = i.val := by
  decide

theorem b64Char_inj {i j : Nat} (hi : i ≤ 64) (hj : j ≤ 64)
    (h : b64Char i = b64Char j) : i = j := by
  have e1 := b64Char_leftInv ⟨i, by omega⟩
  have e2 := b64Char_leftInv ⟨j, by omega⟩
  simp only at e1 e2
  rw [← e1, ← e2, h]

theorem map_b64Char_inj :
    ∀ (xs ys : List Nat), (∀ x ∈ xs, x ≤ 64) → (∀ y ∈ ys, y ≤ 64) →
      xs.map b64Char = ys.map b64Char → xs = ys := by
  intro xs
  induction xs with
  | nil => intro ys _ _ h; cases ys with
    | nil => rfl
    | cons y ys => simp at h
  | cons x xs ih =>
    intro ys hx hy h
    cases ys with
    | nil => simp at h
    | cons y ys =>
      simp only [List.map_cons, List.cons.injEq] at h
      have hxy : x = y :=
        b64Char_inj (hx x (by simp)) (hy y (by simp)) h.1
      have : xs = ys :=
        ih ys (fun a ha => hx a (by simp [ha]))
          (fun a ha => hy a (by simp [ha])) h.2
      rw [hxy, this]

theorem base64Encode_inj {l1 l2 : List Nat}
    (h1 : ∀ b ∈ l1, b < 256) (h2 : ∀ b ∈ l2, b < 256)
    (h : base64Encode l1 = base64Encode l2) : l1 = l2 := by
  have hchunks : b64EncodeChunks l1 = b64EncodeChunks l2 :=
    map_b64Char_inj _ _ (b64EncodeChunks_le l1 h1)
      (b64EncodeChunks_le l2 h2) h
  calc l1 = b64DecodeChunks (b64EncodeChunks l1) :=
        (b64DecodeChunks_encodeChunks l1 h1).symm
    _ = b64DecodeChunks (b64EncodeChunks l2) := by rw [hchunks]
    _ = l2 := b64DecodeChunks_encodeChunks l2 h2

/-! ### Persistence transition idempotence -/

theorem transitionOutcome_idem (store : JSValue → OutcomeState)
    (cid : JSValue) (r : CallbackOutcome) :
    transitionOutcome (transitionOutcome store cid r) cid r =
      transitionOutcome store cid r := by
  funext k
  by_cases hk : k = cid
  · subst hk
    simp only [transitionOutcome, if_pos rfl]
    cases hs : store k with
    | pending => cases r <;> rfl
    | confirmed p => rfl
    | failed d => rfl
  · simp only [transitionOutcome, if_neg hk]

/-! ### Claim theorems -/

/-- C1 (amended): a push submission whose `phoneNumber` or `amount` is
falsy (absent, `null`, empty string, or the number 0 — in particular a
missing field) fails with the 400 ValidationError before any network call
(no token fetch, no gateway submit).  Positivity of `amount` is NOT
checked: the original claim's "fails for any non-positive amount" is
refuted by `stkpush_negative_amount_passes_validation`. -/
theorem stkpush_falsy_validation_before_network
    (phoneNumber amount : JSValue)
    (tokenResult : Except UpstreamErr (List Nat))
    (submitResult : Except UpstreamErr StkOk)
    (h : truthy phoneNumber = false ∨ truthy amount = false) :
    stkpush phoneNumber amount tokenResult submitResult =
      (⟨400, .validationError⟩, []) := by
  rcases h with h | h <;> simp [stkpush, h]

/-- C1 witness: amount 0 (falsy, as is a missing amount) is rejected with
400 and no network effects, even though both upstream calls would succeed. -/
theorem stkpush_falsy_validation_witness :
    truthy (JSValue.num 0) = false ∧
    stkpush (.str (strCodes "0712345678")) (.num 0) (.ok (strCodes "token"))
        (.ok ⟨strCodes "ok", strCodes "ws_CO_1"⟩) =
      (⟨400, .validationError⟩, []) :=
  ⟨by decide,
   stkpush_falsy_validation_before_network _ _ _ _ (Or.inr (by decide))⟩

/-- C1 counterexample: the negative amount -1 passes validation (JS
truthiness only rejects 0) and the submission proceeds to both network
calls and succeeds, contradicting "failing with ValidationError for any
non-positive amount". -/
theorem stkpush_negative_amount_passes_validation :
    stkpush (.str (strCodes "0712345678")) (.num (-1))
        (.ok (strCodes "token")) (.ok ⟨strCodes "ok", strCodes "ws_CO_1"⟩) =
      (⟨200, .stkSuccess (strCodes "ok") (strCodes "ws_CO_1")⟩,
       [.tokenFetch, .gatewaySubmit]) := by
  decide

/-- C2: phone normalization applies exactly the three rules in order: a
leading `0` is replaced by `254`; else a leading `+254` loses only the
`+`; else the input passes through unchanged. -/
theorem formatPhone_rules (s : List Nat) :
    (jsStartsWith (strCodes "0") s = true →
      formatPhone s = strCodes "254" ++ s.drop 1) ∧
    (jsStartsWith (strCodes "0") s = false →
      jsStartsWith (strCodes "+254") s = true →
      formatPhone s = s.drop 1) ∧
    (jsStartsWith (strCodes "0") s = false →
      jsStartsWith (strCodes "+254") s = false →
      formatPhone s = s) :=
  ⟨fun h => by simp [formatPhone, h],
   fun h h2 => by simp [formatPhone, h, h2],
   fun h h2 => by simp [formatPhone, h, h2]⟩

/-- C2 witness: the three example normalizations of the spec. -/
theorem formatPhone_rules_witness :
    formatPhone (strCodes "0712345678") = strCodes "254712345678" ∧
    formatPhone (strCodes "+254712345678") = strCodes "254712345678" ∧
    formatPhone (strCodes "254712345678") = strCodes "254712345678" :=
  ⟨((formatPhone_rules (strCodes "0712345678")).1 (by decide)).trans
      (by decide),
   ((formatPhone_rules (strCodes "+254712345678")).2.1 (by decide)
      (by decide)).trans (by decide),
   ((formatPhone_rules (strCodes "254712345678")).2.2 (by decide)
      (by decide)).trans (by decide)⟩

/-- C3: on a parseable callback the reconciler classifies the payment as
successful exactly when the envelope has an `stkCallback` whose
`ResultCode` equals 0; any other `ResultCode` (absent fields are
`undefined`) yields a failure whose reason is the envelope's `ResultDesc`,
whatever the metadata; a missing `stkCallback` yields a failure with
`undefined` reason. -/
theorem callback_success_iff_resultCode_zero (req : CallbackRequest)
    (body : CallbackBody) (h : req.Body = some body) :
    ((∃ p, (handleCallback req).2 = some (.success p)) ↔
      ∃ cb, body.stkCallback = some cb ∧ cb.ResultCode = .num 0) ∧
    (∀ cb, body.stkCallback = some cb → cb.ResultCode ≠ .num 0 →
      (handleCallback req).2 = some (.failure cb.ResultDesc)) ∧
    (body.stkCallback = none →
      (handleCallback req).2 = some (.failure .undefined)) := by
  obtain ⟨Body⟩ := req
  cases h
  cases hcb : body.stkCallback with
  | none =>
      refine ⟨by simp [handleCallback, hcb], fun cb hc => ?_,
        fun _ => by simp [handleCallback, hcb]⟩
      cases hc
  | some cb =>
      by_cases hrc : cb.ResultCode = .num 0
      · refine ⟨?_, fun cb2 hc hne => ?_, fun hnone => ?_⟩
        · simp [handleCallback, hcb, hrc]
        · injection hc with hc
          subst hc
          exact absurd hrc hne
        · cases hnone
      · refine ⟨?_, fun cb2 hc hne => ?_, fun hnone => ?_⟩
        · simp [handleCallback, hcb, hrc]
        · injection hc with hc
          subst hc
          simp [handleCallback, hcb, hrc]
        · cases hnone

/-- C3 witness: a callback with `ResultCode` 1032 is classified as a
failure with the envelope's `ResultDesc` as reason, although metadata is
present. -/
theorem callback_resultCode_1032_failure_witness :
    (handleCallback ⟨some ⟨some
      { MerchantRequestID := .str (strCodes "29115-34620561-1")
        CheckoutRequestID := .str (strCodes "ws_CO_191220191020363925")
        ResultCode := .num 1032
        ResultDesc := .str (strCodes "Request cancelled by user")
        CallbackMetadata := some [⟨strCodes "Amount", .num 500⟩] }⟩⟩).2 =
      some (.failure (.str (strCodes "Request cancelled by user"))) :=
  (callback_success_iff_resultCode_zero _ _ rfl).2.1 _ rfl (by decide)

/-- C4: the callback handler acknowledges 200 exactly when the body parses
into the expected envelope shape (a `Body` object is present), regardless
of the payment outcome, and 500 exactly when it does not. -/
theorem callback_ack_matches_parseability (req : CallbackRequest) :
    (ackStatus (handleCallback req).1 = 200 ↔ req.Body ≠ none) ∧
    (ackStatus (handleCallback req).1 = 500 ↔ req.Body = none) := by
  obtain ⟨Body⟩ := req
  cases Body with
  | none => simp [handleCallback, ackStatus]
  | some body =>
    cases hcb : body.stkCallback with
    | none => simp [handleCallback, hcb, ackStatus]
    | some cb =>
      by_cases hrc : cb.ResultCode = .num 0 <;>
        simp [handleCallback, hcb, hrc, ackStatus]

/-- C5: the derived password is the base64 encoding of
`shortCode ++ passKey ++ timestamp` (so it is a function of the triple:
deterministic), and for a fixed shortcode and passkey two different
14-digit timestamps always yield different passwords. -/
theorem generatePassword_base64_and_timestamp_injective
    (config : MpesaConfig) (t1 t2 : List Nat)
    (hsc : ∀ b ∈ config.businessShortCode, b < 256)
    (hpk : ∀ b ∈ config.passKey, b < 256)
    (h1 : ∀ b ∈ t1, b < 256) (h2 : ∀ b ∈ t2, b < 256)
    (_hlen1 : t1.length = 14) (_hlen2 : t2.length = 14) (hne : t1 ≠ t2) :
    (generatePassword config t1).1 =
      base64Encode (config.businessShortCode ++ config.passKey ++ t1) ∧
    (generatePassword config t1).1 ≠ (generatePassword config t2).1 := by
  refine ⟨rfl, fun hEq => hne ?_⟩
  have hb1 : ∀ b ∈ config.businessShortCode ++ config.passKey ++ t1,
      b < 256 := by
    intro b hb
    simp only [List.mem_append] at hb
    rcases hb with (hb | hb) | hb
    exacts [hsc b hb, hpk b hb, h1 b hb]
  have hb2 : ∀ b ∈ config.businessShortCode ++ config.passKey ++ t2,
      b < 256 := by
    intro b hb
    simp only [List.mem_append] at hb
    rcases hb with (hb | hb) | hb
    exacts [hsc b hb, hpk b hb, h2 b hb]
  have hc : config.businessShortCode ++ config.passKey ++ t1 =
      config.businessShortCode ++ config.passKey ++ t2 :=
    base64Encode_inj hb1 hb2 hEq
  exact List.append_cancel_left hc

/-- C5 witness: concrete shortcode, passkey and two adjacent 14-digit
timestamps; the password is the base64 of the concatenation and the two
passwords differ. -/
theorem generatePassword_witness :
    (generatePassword
        ⟨strCodes "174379", strCodes "bfb279f9aa9bdbcf", strCodes "https://cb"⟩
        (strCodes "20240101120000")).1 =
      base64Encode (strCodes "174379" ++ strCodes "bfb279f9aa9bdbcf" ++
        strCodes "20240101120000") ∧
    (generatePassword
        ⟨strCodes "174379", strCodes "bfb279f9aa9bdbcf", strCodes "https://cb"⟩
        (strCodes "20240101120000")).1 ≠
      (generatePassword
        ⟨strCodes "174379", strCodes "bfb279f9aa9bdbcf", strCodes "https://cb"⟩
        (strCodes "20240101120001")).1 :=
  generatePassword_base64_and_timestamp_injective
    ⟨strCodes "174379", strCodes "bfb279f9aa9bdbcf", strCodes "https://cb"⟩
    (strCodes "20240101120000") (strCodes "20240101120001")
    (by decide) (by decide) (by decide) (by decide) (by decide) (by decide)
    (by decide)

/-- C6 counterexample: the status-query handler answers the same fixed
local error for two different upstream error payloads, so it cannot be
forwarding the gateway's own not-found/error response: upstream details
are discarded (only logged), refuting "preserves the original upstream
payload" for this endpoint. -/
theorem paymentStatus_discards_upstream_details :
    paymentStatus (strCodes "ws_CO_unknown") (.ok (strCodes "token"))
        (.error (.httpError (strCodes "resource not found"))) =
      paymentStatus (strCodes "ws_CO_unknown") (.ok (strCodes "token"))
        (.error (.httpError (strCodes "another upstream payload"))) ∧
    strCodes "resource not found" ≠ strCodes "another upstream payload" ∧
    (paymentStatus (strCodes "ws_CO_unknown") (.ok (strCodes "token"))
        (.error (.httpError (strCodes "resource not found")))).1 =
      ⟨500, .statusError⟩ :=
  ⟨rfl, by decide, rfl⟩

/-- C6 (amended): only the push-submission endpoint preserves the upstream
payload/message (in the `details` field of its 500 response), for both the
token fetch and the gateway submit; the status-query endpoint instead
answers a fixed `{error: 'Failed to check payment status'}` with no
upstream details on every upstream failure. -/
theorem upstream_details_preserved_stkpush_only
    (s : List Nat) (amount : JSValue) (tok : List Nat) (e : UpstreamErr)
    (submitResult : Except UpstreamErr StkOk)
    (hs : s ≠ []) (ha : truthy amount = true) :
    stkpush (.str s) amount (.error e) submitResult =
      (⟨500, .stkError (errDetails e)⟩, [.tokenFetch]) ∧
    stkpush (.str s) amount (.ok tok) (.error e) =
      (⟨500, .stkError (errDetails e)⟩, [.tokenFetch, .gatewaySubmit]) ∧
    ∀ (cid tok2 : List Nat) (e2 : UpstreamErr),
      paymentStatus cid (.ok tok2) (.error e2) =
        (⟨500, .statusError⟩, [.tokenFetch, .gatewayQuery]) := by
  have ht : truthy (.str s) = true := by
    cases s with
    | nil => exact absurd rfl hs
    | cons a l => rfl
  exact ⟨by simp [stkpush, ht, ha], by simp [stkpush, ht, ha],
    fun cid tok2 e2 => rfl⟩

/-- C6 amended-claim witness: a concrete upstream auth failure is forwarded
in the push response's `details`, while the status query maps every
upstream failure to the fixed local error. -/
theorem upstream_details_witness :
    stkpush (.str (strCodes "0712345678")) (.num 100)
        (.error (.httpError (strCodes "invalid credentials")))
        (.ok ⟨strCodes "ok", strCodes "ws_CO_1"⟩) =
      (⟨500, .stkError (strCodes "invalid credentials")⟩, [.tokenFetch]) ∧
    stkpush (.str (strCodes "0712345678")) (.num 100)
        (.ok (strCodes "token"))
        (.error (.httpError (strCodes "invalid credentials"))) =
      (⟨500, .stkError (strCodes "invalid credentials")⟩,
       [.tokenFetch, .gatewaySubmit]) ∧
    ∀ (cid tok2 : List Nat) (e2 : UpstreamErr),
      paymentStatus cid (.ok tok2) (.error e2) =
        (⟨500, .statusError⟩, [.tokenFetch, .gatewayQuery]) :=
  upstream_details_preserved_stkpush_only (strCodes "0712345678")
    (.num 100) (strCodes "token")
    (.httpError (strCodes "invalid credentials"))
    (.ok ⟨strCodes "ok", strCodes "ws_CO_1"⟩) (by decide) (by decide)

/-- C7: on a successful callback (`ResultCode` 0) the reconciled payment
output surfaces the envelope's `MerchantRequestID` as `accountReference`,
and `Amount`, `MpesaReceiptNumber`, `PhoneNumber`, `TransactionDate` are
looked up in the metadata list by name, with `undefined` (not an error)
when absent. -/
theorem callback_success_payment_data (req : CallbackRequest)
    (body : CallbackBody) (cb : StkCallback)
    (h : req.Body = some body) (hcb : body.stkCallback = some cb)
    (hrc : cb.ResultCode = .num 0) :
    (handleCallback req).2 = some (.success
      { amount := findValue (cb.CallbackMetadata.getD []) (strCodes "Amount")
        mpesaReceiptNumber := findValue (cb.CallbackMetadata.getD [])
          (strCodes "MpesaReceiptNumber")
        phoneNumber := findValue (cb.CallbackMetadata.getD [])
          (strCodes "PhoneNumber")
        transactionDate := findValue (cb.CallbackMetadata.getD [])
          (strCodes "TransactionDate")
        accountReference := cb.MerchantRequestID }) ∧
    ∀ name, findValue [] name = .undefined := by
  obtain ⟨Body⟩ := req
  cases h
  exact ⟨by simp [handleCallback, hcb, hrc], fun name => rfl⟩

/-- C7 witness: the spec's example success callback; `Amount` and
`MpesaReceiptNumber` are extracted, the absent `PhoneNumber` and
`TransactionDate` come out `undefined`, and `accountReference` is the
envelope's `MerchantRequestID`. -/
theorem callback_success_payment_data_witness :
    (handleCallback ⟨some ⟨some
      { MerchantRequestID := .str (strCodes "29115-34620561-1")
        CheckoutRequestID := .str (strCodes "ws_CO_191220191020363925")
        ResultCode := .num 0
        ResultDesc := .str (strCodes "The service request is processed successfully.")
        CallbackMetadata := some
          [⟨strCodes "Amount", .num 500⟩,
           ⟨strCodes "MpesaReceiptNumber", .str (strCodes "ABC123")⟩] }⟩⟩).2 =
      some (.success
        { amount := .num 500
          mpesaReceiptNumber := .str (strCodes "ABC123")
          phoneNumber := .undefined
          transactionDate := .undefined
          accountReference := .str (strCodes "29115-34620561-1") }) :=
  ((callback_success_payment_data _ _ _ rfl rfl rfl).1).trans (by decide)

/-- C8: delivering the same callback envelope twice to the reconciler plus
the (spec-modelled) persistence collaborator results in exactly one
payment-outcome transition: the second delivery leaves the stored outcome
map unchanged. -/
theorem deliverCallback_idempotent (store : JSValue → OutcomeState)
    (req : CallbackRequest) :
    deliverCallback (deliverCallback store req) req =
      deliverCallback store req := by
  obtain ⟨Body⟩ := req
  cases Body with
  | none => rfl
  | some body =>
    cases hcb : body.stkCallback with
    | none => simp [deliverCallback, hcb]
    | some cb =>
      by_cases hrc : cb.ResultCode = .num 0 <;>
        simp [deliverCallback, handleCallback, hcb, hrc,
          transitionOutcome_idem]

/-- C9: the status-query payload derives `Password` and `Timestamp` from
two independent wall-clock reads, so there is a clock behavior (a second
boundary between the reads) on which the submitted `Timestamp` is not the
timestamp embedded in the submitted `Password`; the push payload always
uses the single timestamp returned alongside the password, so its
`Password` always embeds its `Timestamp`. -/
theorem statusQuery_password_timestamp_skew :
    (∃ (config : MpesaConfig) (clock : Nat → List Nat) (cid : List Nat),
      (statusQueryPayloadOf config clock cid).Password ≠
        (generatePassword config
          (statusQueryPayloadOf config clock cid).Timestamp).1) ∧
    ∀ (config : MpesaConfig) (clock : Nat → List Nat) (phone : List Nat)
      (amount accountReference description : JSValue),
      (stkPushPayloadOf config clock phone amount accountReference
          description).Password =
        (generatePassword config
          (stkPushPayloadOf config clock phone amount accountReference
            description).Timestamp).1 := by
  constructor
  · refine ⟨⟨strCodes "174379", strCodes "key", strCodes "https://cb"⟩,
      fun i => if i = 0 then strCodes "20240101115959"
               else strCodes "20240101120000",
      strCodes "ws_CO_1", ?_⟩
    decide
  · intro config clock phone amount accountReference description
    rfl

/-- C10: a push submission whose `phoneNumber` is present but a number
(truthy, non-string) makes the normalization step throw a TypeError, and
the handler reports the 500 `{error, details}` upstream-style failure
rather than a 400 ValidationError, without any network call having been
attempted. -/
theorem stkpush_nonstring_phone_500
    (tokenResult : Except UpstreamErr (List Nat))
    (submitResult : Except UpstreamErr StkOk) :
    stkpush (.num 712345678) (.num 1) tokenResult submitResult =
      (⟨500, .stkError typeErrorMessage⟩, []) := rfl

end PorkyMpesa
